import Mathlib

/-!
Verification of the standalone JSON-RPC MCP server
(`src/mcp_poc/standalone_server.py` together with the lazy client of
`src/mcp_poc/ai_tools.py`).

The embedding models the values produced by Python's `json.loads` as an
inductive `Json` type, Python attribute errors and raised exceptions as the
error channel of `Except String`, and the outbound OpenAI client as an
abstract `ProviderEnv` record (client construction outcome plus completion
outcome).  Handlers are translated line by line from the Python source.
-/

namespace McpPoc

/-- JSON values as decoded by Python's `json.loads`: `None`, booleans,
numbers, strings, lists and dicts (dicts become association lists with
distinct keys; numbers are modelled as integers, no property below involves
a fractional literal). -/
inductive Json where
  | null
  | bool (b : Bool)
  | num (n : Int)
  | str (s : String)
  | arr (elems : List Json)
  | obj (fields : List (String × Json))

/-- First binding of `key` in an association list (Python dict keys are
unique, so first match equals the dict lookup). -/
def lookupField : List (String × Json) → String → Option Json
  | [], _ => none
  | (k, v) :: rest, key => if k = key then some v else lookupField rest key

/-- Pure observation `dict.get(key, default)` on a JSON object; any
non-object yields the default.  Used to *state* properties of envelopes. -/
def Json.getD (j : Json) (key : String) (dflt : Json) : Json :=
  match j with
  | .obj fields => (lookupField fields key).getD dflt
  | _ => dflt

/-- Whether a JSON object carries the given key (`key in dict`). -/
def Json.hasKey (j : Json) (key : String) : Bool :=
  match j with
  | .obj fields => (lookupField fields key).isSome
  | _ => false

/-- Python `x.get(key, default)` as executed by the server: succeeds on a
dict, raises `AttributeError` on every other decoded value (lists, strings,
numbers, booleans, `None` have no `.get`).  The error text abbreviates
Python's message, which also names the concrete type; no verified property
depends on that text. -/
def pyGetD (j : Json) (key : String) (dflt : Json) : Except String Json :=
  match j with
  | .obj fields => .ok ((lookupField fields key).getD dflt)
  | _ => .error "AttributeError: object has no attribute get"

mutual

/-- Python `str()` of a decoded JSON value, as applied by f-strings and by
`str.format`.  For lists and dicts Python prints a `repr` that additionally
quotes inner strings; we render the same structure unquoted — no verified
property stringifies a list or dict. -/
def pyStr : Json → String
  | .null => "None"
  | .bool true => "True"
  | .bool false => "False"
  | .num n => toString n
  | .str s => s
  | .arr elems => "[" ++ pyStrList elems ++ "]"
  | .obj fields => "\x7b" ++ pyStrFields fields ++ "\x7d"

def pyStrList : List Json → String
  | [] => ""
  | [x] => pyStr x
  | x :: y :: rest => pyStr x ++ ", " ++ pyStrList (y :: rest)

def pyStrFields : List (String × Json) → String
  | [] => ""
  | [kv] => kv.1 ++ ": " ++ pyStr kv.2
  | kv :: kv2 :: rest => kv.1 ++ ": " ++ pyStr kv.2 ++ ", " ++ pyStrFields (kv2 :: rest)

end

/-- The opening and closing brace characters scanned for by `str.format`. -/
def lbrace : Char := Char.ofNat 123

def rbrace : Char := Char.ofNat 125

/-- One left-to-right pass of Python `str.format` over the template's
characters.  Outside a replacement field (`acc = none`) characters are
copied; `\x7b` opens a field; inside a field (`acc = some name`) characters
accumulate until `\x7d`, whereupon the binding for the collected name is
emitted verbatim — substituted text is never rescanned, exactly as in
Python's single-pass formatter.  The catalog templates contain only
well-formed `\x7bname\x7d` fields over known names, so the escaped-brace
(`\x7b\x7b`) and unterminated-field paths of Python (the latter raises)
never arise for them; an unterminated field here drops the dangling tail. -/
def pyFormatGo (binds : String → String) : List Char → Option (List Char) → List Char
  | [], _ => []
  | c :: rest, none =>
      if c = lbrace then pyFormatGo binds rest (some [])
      else c :: pyFormatGo binds rest none
  | c :: rest, some nameAcc =>
      if c = rbrace then (binds (String.mk nameAcc)).data ++ pyFormatGo binds rest none
      else pyFormatGo binds rest (some (nameAcc ++ [c]))

/-- Python `template.format(code=…, language=…, style=…, focus=…,
concept=…, level=…)` restricted to the fixed catalog templates. -/
def pyFormat (template : String) (binds : String → String) : String :=
  String.mk (pyFormatGo binds template.data none)

/-- Whether `needle` begins `hay`: `listIsPrefixOf needle hay` decides whether `needle` begins `hay`. -/
def listIsPrefixOf : List Char → List Char → Bool
  | [], _ => true
  | _ :: _, [] => false
  | a :: as, b :: bs => a = b && listIsPrefixOf as bs

/-- Whether `needle` occurs as a contiguous run inside `hay`. -/
def listContainsSub : List Char → List Char → Bool
  | [], needle => listIsPrefixOf needle []
  | c :: rest, needle => listIsPrefixOf needle (c :: rest) || listContainsSub rest needle

/-- Substring test used to state the `in`-style containment assertions of
the specification. -/
def strContains (s pat : String) : Bool :=
  listContainsSub s.data pat.data

/-- Python `j == s` for a decoded value against a string literal: true
exactly when `j` is that string. -/
def jsonEqStr (j : Json) (s : String) : Bool :=
  match j with
  | .str t => t = s
  | _ => false

/-! ## Response envelopes (`handle_request` / `run`) -/

/-- The success envelope `{"jsonrpc": "2.0", "id": …, "result": …}` built
at line 678 of `standalone_server.py`. -/
def successEnvelope (idJ : Json) (result : Json) : Json :=
  .obj [("jsonrpc", .str "2.0"), ("id", idJ), ("result", result)]

/-- The error envelope `{"jsonrpc": "2.0", "id": …, "error": {"code": …,
"message": …}}` built at lines 682–686 of `standalone_server.py`. -/
def errorEnvelope (idJ : Json) (code : Int) (message : String) : Json :=
  .obj [("jsonrpc", .str "2.0"), ("id", idJ),
        ("error", .obj [("code", .num code), ("message", .str message)])]

/-- The fixed envelope printed by `run` when `json.loads` raises
`JSONDecodeError` (lines 709–713). -/
def parseErrorResponse : Json :=
  errorEnvelope .null (-32700) "Parse error"

/-! ## `handle_initialize` -/

/-- The static capability descriptor returned by `handle_initialize`. -/
def initializeResult (serverName : String) : Json :=
  .obj [("protocolVersion", .str "2024-11-05"),
        ("serverInfo", .obj [("name", .str serverName), ("version", .str "1.0.0")]),
        ("capabilities", .obj
          [("prompts", .obj [("listChanged", .bool false)]),
           ("tools", .obj [("listChanged", .bool false)]),
           ("resources", .obj [("listChanged", .bool false), ("subscribe", .bool false)])])]

/-- Handler `handle_initialize`: ignores its params and returns the static
capability/version descriptor. -/
def handle_initialize (serverName : String) (_params : Json) : Except String Json :=
  .ok (initializeResult serverName)

/-! ## `prompts/list` -/

/-- One prompt-argument descriptor `{"name": …, "description": …,
"required": …}`. -/
def promptArg (name description : String) (required : Bool) : Json :=
  .obj [("name", .str name), ("description", .str description), ("required", .bool required)]

/-- The static prompt catalog returned by `handle_list_prompts`. -/
def promptsCatalog : Json :=
  .obj [("prompts", .arr
    [.obj [("name", .str "analyze_code"),
           ("description", .str "Analyze code for quality, security, and best practices"),
           ("arguments", .arr
             [promptArg "code" "The code to analyze" true,
              promptArg "language" "Programming language of the code" false])],
     .obj [("name", .str "generate_documentation"),
           ("description", .str "Generate comprehensive documentation for code"),
           ("arguments", .arr
             [promptArg "code" "The code to document" true,
              promptArg "style" "Documentation style (e.g., \x27sphinx\x27, \x27google\x27, \x27numpy\x27)" false])],
     .obj [("name", .str "code_review"),
           ("description", .str "Perform a comprehensive code review"),
           ("arguments", .arr
             [promptArg "code" "The code to review" true,
              promptArg "focus" "Review focus (e.g., \x27security\x27, \x27performance\x27, \x27maintainability\x27)" false])],
     .obj [("name", .str "explain_concept"),
           ("description", .str "Explain programming concepts or technologies"),
           ("arguments", .arr
             [promptArg "concept" "The concept to explain" true,
              promptArg "level" "Explanation level (e.g., \x27beginner\x27, \x27intermediate\x27, \x27advanced\x27)" false])]])]

/-- Handler `handle_list_prompts`: ignores its params and returns the fixed
catalog rebuilt from the same literals on every call. -/
def handle_list_prompts (_params : Json) : Except String Json :=
  .ok promptsCatalog

/-! ## `prompts/get` -/

/-- Template for `analyze_code` (lines 132–144). -/
def analyzeCodeTemplate : String :=
  "Analyze the following {language} code for:\n1. Code quality and best practices\n2. Potential bugs or issues\n3. Security vulnerabilities\n4. Performance considerations\n5. Maintainability and readability\n\nCode to analyze:\n```{language}\n{code}\n```\n\nProvide a detailed analysis with specific recommendations for improvement."

/-- Template for `generate_documentation` (lines 145–159). -/
def generateDocumentationTemplate : String :=
  "Generate comprehensive documentation for the following code using {style} style:\n\nCode:\n```\n{code}\n```\n\nInclude:\n1. Function/class descriptions\n2. Parameter documentation\n3. Return value documentation\n4. Usage examples\n5. Exception handling information\n\nUse {style} documentation format."

/-- Template for `code_review` (lines 160–177). -/
def codeReviewTemplate : String :=
  "Perform a comprehensive code review with focus on {focus}:\n\nCode to review:\n```\n{code}\n```\n\nReview criteria:\n1. Code structure and organization\n2. Error handling and edge cases\n3. Performance implications\n4. Security considerations\n5. Adherence to best practices\n6. Testing considerations\n\nFocus area: {focus}\n\nProvide constructive feedback with specific suggestions for improvement."

/-- Template for `explain_concept` (lines 178–188). -/
def explainConceptTemplate : String :=
  "Explain the programming concept \"{concept}\" at a {level} level.\n\nInclude:\n1. Clear definition and explanation\n2. Why it\x27s important/useful\n3. Common use cases and examples\n4. Best practices\n5. Common pitfalls to avoid\n6. Related concepts\n\nTailor the explanation to a {level} audience."

/-- The `prompt_templates` dict of `handle_get_prompt`. -/
def promptTemplates : List (String × String) :=
  [("analyze_code", analyzeCodeTemplate),
   ("generate_documentation", generateDocumentationTemplate),
   ("code_review", codeReviewTemplate),
   ("explain_concept", explainConceptTemplate)]

/-- String-keyed association lookup for the template and resource dicts. -/
def lookupStr : List (String × String) → String → Option String
  | [], _ => none
  | (k, v) :: rest, key => if k = key then some v else lookupStr rest key

/-- Lookup `name in prompt_templates` followed by `prompt_templates[name]`: only a
string name can be a key of the dict. -/
def templateFor (nameJ : Json) : Option String :=
  match nameJ with
  | .str s => lookupStr promptTemplates s
  | _ => none

/-- The keyword bindings passed to `template.format(...)` at lines
203–210, one stringified value per placeholder name. -/
def formatBinds (code language style focus concept level : Json) : String → String :=
  fun k =>
    if k = "code" then pyStr code
    else if k = "language" then pyStr language
    else if k = "style" then pyStr style
    else if k = "focus" then pyStr focus
    else if k = "concept" then pyStr concept
    else if k = "level" then pyStr level
    else ""

/-- The result dict returned by `handle_get_prompt` on success (lines
212–217). -/
def promptResult (nameJ : Json) (promptText : String) : Json :=
  .obj [("description", .str ("Generated prompt for " ++ pyStr nameJ)),
        ("messages", .arr
          [.obj [("role", .str "user"),
                 ("content", .obj [("type", .str "text"), ("text", .str promptText)])]])]

/-- Handler `handle_get_prompt`, line by line: read `name` and `arguments` from the
params dict (raising on a non-dict), raise `Unknown prompt` for a name
outside the template dict, then read the six argument values with their
defaults (raising if `arguments` is not a dict) and fill the template. -/
def handle_get_prompt (params : Json) : Except String Json :=
  match pyGetD params "name" (.str "") with
  | .error e => .error e
  | .ok nameJ =>
    match pyGetD params "arguments" (.obj []) with
    | .error e => .error e
    | .ok argsJ =>
      match templateFor nameJ with
      | none => .error ("Unknown prompt: " ++ pyStr nameJ)
      | some template =>
        match pyGetD argsJ "code" (.str "") with
        | .error e => .error e
        | .ok code =>
          match pyGetD argsJ "language" (.str "unknown") with
          | .error e => .error e
          | .ok language =>
            match pyGetD argsJ "style" (.str "google") with
            | .error e => .error e
            | .ok style =>
              match pyGetD argsJ "focus" (.str "general") with
              | .error e => .error e
              | .ok focus =>
                match pyGetD argsJ "concept" (.str "") with
                | .error e => .error e
                | .ok concept =>
                  match pyGetD argsJ "level" (.str "intermediate") with
                  | .error e => .error e
                  | .ok level =>
                    .ok (promptResult nameJ
                      (pyFormat template (formatBinds code language style focus concept level)))

/-! ## `tools/list` -/

/-- A string-typed property of a tool input schema. -/
def schemaProp (description : String) : Json :=
  .obj [("type", .str "string"), ("description", .str description)]

/-- A string-typed schema property carrying a `default`. -/
def schemaPropD (description dflt : String) : Json :=
  .obj [("type", .str "string"), ("description", .str description), ("default", .str dflt)]

/-- The static tool catalog returned by `handle_list_tools` (lines
219–340). -/
def toolsCatalog : Json :=
  .obj [("tools", .arr
    [.obj [("name", .str "generate_code"),
           ("description", .str "Generate code based on specifications"),
           ("inputSchema", .obj
             [("type", .str "object"),
              ("properties", .obj
                [("specification", schemaProp "Description of what code to generate"),
                 ("language", schemaPropD "Programming language for the code" "python"),
                 ("style", schemaPropD "Coding style or framework to use" "clean")]),
              ("required", .arr [.str "specification"])])],
     .obj [("name", .str "refactor_code"),
           ("description", .str "Refactor existing code for better quality"),
           ("inputSchema", .obj
             [("type", .str "object"),
              ("properties", .obj
                [("code", schemaProp "The code to refactor"),
                 ("goal", schemaPropD "Refactoring goal (e.g., \x27performance\x27, \x27readability\x27, \x27maintainability\x27)" "maintainability"),
                 ("language", schemaPropD "Programming language of the code" "python")]),
              ("required", .arr [.str "code"])])],
     .obj [("name", .str "debug_code"),
           ("description", .str "Help debug code issues and find solutions"),
           ("inputSchema", .obj
             [("type", .str "object"),
              ("properties", .obj
                [("code", schemaProp "The code with issues"),
                 ("error", schemaProp "Error message or description of the problem"),
                 ("context", schemaProp "Additional context about when the error occurs")]),
              ("required", .arr [.str "code", .str "error"])])],
     .obj [("name", .str "optimize_performance"),
           ("description", .str "Analyze and optimize code performance"),
           ("inputSchema", .obj
             [("type", .str "object"),
              ("properties", .obj
                [("code", schemaProp "The code to optimize"),
                 ("bottleneck", schemaProp "Known performance bottleneck or area of concern"),
                 ("constraints", schemaProp "Performance constraints or requirements")]),
              ("required", .arr [.str "code"])])],
     .obj [("name", .str "generate_tests"),
           ("description", .str "Generate unit tests for given code"),
           ("inputSchema", .obj
             [("type", .str "object"),
              ("properties", .obj
                [("code", schemaProp "The code to generate tests for"),
                 ("framework", schemaPropD "Testing framework to use (e.g., \x27pytest\x27, \x27unittest\x27, \x27jest\x27)" "pytest"),
                 ("coverage", schemaPropD "Desired test coverage level" "comprehensive")]),
              ("required", .arr [.str "code"])])]])]

/-- Handler `handle_list_tools`: ignores its params and returns the fixed catalog
rebuilt from the same literals on every call. -/
def handle_list_tools (_params : Json) : Except String Json :=
  .ok toolsCatalog

/-! ## `tools/call` and the completion provider -/

/-- The outbound collaborators of `handle_call_tool`: `getClient` is the
outcome of `openai_client.get_client()` (which raises
`"OPENAI_API_KEY environment variable must be set"` when the variable is
absent, `ai_tools.py` lines 15–22, and may also fail inside the `OpenAI`
constructor); `complete` is the outcome of
`client.chat.completions.create(model="gpt-4o", messages=[…],
temperature=0.3)` followed by `.choices[0].message.content`, collapsing
transport and API failures into the error channel.  The fixed model and
temperature are the same for all five tools, so they are not parameters
here. -/
structure ProviderEnv where
  getClient : Except String Unit
  complete : String → Except String String

/-- The f-string prompt of the `generate_code` branch (lines 356–367). -/
def generateCodePrompt (specification language style : String) : String :=
  "Generate " ++ language ++ " code based on this specification:\n\n" ++ specification ++
  "\n\nRequirements:\n- Use " ++ style ++ " coding style\n- Include appropriate comments\n- Follow best practices for " ++
  language ++ "\n- Make the code production-ready\n- Include error handling where appropriate\n\nGenerate only the code, no explanations."

/-- The f-string prompt of the `refactor_code` branch (lines 386–399). -/
def refactorCodePrompt (code goal language : String) : String :=
  "Refactor this " ++ language ++ " code with focus on " ++ goal ++ ":\n\nOriginal code:\n```" ++
  language ++ "\n" ++ code ++ "\n```\n\nRefactoring goals:\n- Improve " ++ goal ++
  "\n- Maintain functionality\n- Follow " ++ language ++ " best practices\n- Add improvements where beneficial\n\nProvide the refactored code with comments explaining the changes."

/-- The f-string prompt of the `debug_code` branch (lines 418–433). -/
def debugCodePrompt (code error context : String) : String :=
  "Help debug this code issue:\n\nCode:\n```\n" ++ code ++ "\n```\n\nError: " ++ error ++
  "\n\nContext: " ++ context ++
  "\n\nPlease:\n1. Identify the root cause of the issue\n2. Explain why the error is occurring\n3. Provide a fixed version of the code\n4. Suggest preventive measures for similar issues"

/-- The f-string prompt of the `optimize_performance` branch (lines
452–467). -/
def optimizePerformancePrompt (code bottleneck constraints : String) : String :=
  "Analyze and optimize this code for performance:\n\nCode:\n```\n" ++ code ++
  "\n```\n\nKnown bottleneck: " ++ bottleneck ++ "\nConstraints: " ++ constraints ++
  "\n\nPlease:\n1. Identify performance issues\n2. Suggest optimization strategies\n3. Provide optimized code\n4. Explain the performance improvements\n5. Mention any trade-offs"

/-- The f-string prompt of the `generate_tests` branch (lines 486–501). -/
def generateTestsPrompt (code framework coverage : String) : String :=
  "Generate " ++ coverage ++ " unit tests for this code using " ++ framework ++
  ":\n\nCode to test:\n```\n" ++ code ++ "\n```\n\nTest requirements:\n- Use " ++ framework ++
  " framework\n- " ++ coverage ++ " test coverage\n- Test both positive and negative cases\n- Include edge cases\n- Add appropriate assertions\n- Follow testing best practices\n\nGenerate complete test code that can be run immediately."

/-- The `{"content": [{"type": "text", "text": …}]}` payload each tool
branch returns on provider success. -/
def toolTextResult (text : String) : Json :=
  .obj [("content", .arr [.obj [("type", .str "text"), ("text", .str text)]])]

/-- The `{"content": [{"type": "text", "text": "Error: …"}], "isError":
true}` payload built by the `except` clause at lines 518–523. -/
def toolErrorResult (message : String) : Json :=
  .obj [("content", .arr [.obj [("type", .str "text"), ("text", .str ("Error: " ++ message))]]),
        ("isError", .bool true)]

/-- The body of `handle_call_tool`'s `try` block after the client has been
obtained: the `if name == …` chain over the five tools, each branch reading
its arguments with defaults (raising if `arguments` is not a dict),
building its prompt and calling the provider; the final `else` raises
`Unknown tool`. -/
def toolDispatch (env : ProviderEnv) (nameJ : Json) (argsJ : Json) : Except String Json :=
  if jsonEqStr nameJ "generate_code" then
    match pyGetD argsJ "specification" (.str "") with
    | .error e => .error e
    | .ok specification =>
      match pyGetD argsJ "language" (.str "python") with
      | .error e => .error e
      | .ok language =>
        match pyGetD argsJ "style" (.str "clean") with
        | .error e => .error e
        | .ok style =>
          match env.complete (generateCodePrompt (pyStr specification) (pyStr language) (pyStr style)) with
          | .error e => .error e
          | .ok text => .ok (toolTextResult text)
  else if jsonEqStr nameJ "refactor_code" then
    match pyGetD argsJ "code" (.str "") with
    | .error e => .error e
    | .ok code =>
      match pyGetD argsJ "goal" (.str "maintainability") with
      | .error e => .error e
      | .ok goal =>
        match pyGetD argsJ "language" (.str "python") with
        | .error e => .error e
        | .ok language =>
          match env.complete (refactorCodePrompt (pyStr code) (pyStr goal) (pyStr language)) with
          | .error e => .error e
          | .ok text => .ok (toolTextResult text)
  else if jsonEqStr nameJ "debug_code" then
    match pyGetD argsJ "code" (.str "") with
    | .error e => .error e
    | .ok code =>
      match pyGetD argsJ "error" (.str "") with
      | .error e => .error e
      | .ok error =>
        match pyGetD argsJ "context" (.str "") with
        | .error e => .error e
        | .ok context =>
          match env.complete (debugCodePrompt (pyStr code) (pyStr error) (pyStr context)) with
          | .error e => .error e
          | .ok text => .ok (toolTextResult text)
  else if jsonEqStr nameJ "optimize_performance" then
    match pyGetD argsJ "code" (.str "") with
    | .error e => .error e
    | .ok code =>
      match pyGetD argsJ "bottleneck" (.str "") with
      | .error e => .error e
      | .ok bottleneck =>
        match pyGetD argsJ "constraints" (.str "") with
        | .error e => .error e
        | .ok constraints =>
          match env.complete (optimizePerformancePrompt (pyStr code) (pyStr bottleneck) (pyStr constraints)) with
          | .error e => .error e
          | .ok text => .ok (toolTextResult text)
  else if jsonEqStr nameJ "generate_tests" then
    match pyGetD argsJ "code" (.str "") with
    | .error e => .error e
    | .ok code =>
      match pyGetD argsJ "framework" (.str "pytest") with
      | .error e => .error e
      | .ok framework =>
        match pyGetD argsJ "coverage" (.str "comprehensive") with
        | .error e => .error e
        | .ok coverage =>
          match env.complete (generateTestsPrompt (pyStr code) (pyStr framework) (pyStr coverage)) with
          | .error e => .error e
          | .ok text => .ok (toolTextResult text)
  else
    .error ("Unknown tool: " ++ pyStr nameJ)

/-- Handler `handle_call_tool`: `name` and `arguments` are read from the params
dict *before* the `try` block, so a non-dict params raises out of the
handler; everything inside the `try` — client construction, argument
reads, the provider call, and the handler's own `Unknown tool` raise — is
caught by the `except` clause and converted into a *successful*
`isError: true` payload. -/
def handle_call_tool (env : ProviderEnv) (params : Json) : Except String Json :=
  match pyGetD params "name" (.str "") with
  | .error e => .error e
  | .ok nameJ =>
    match pyGetD params "arguments" (.obj []) with
    | .error e => .error e
    | .ok argsJ =>
      match (match env.getClient with
             | .error e => .error e
             | .ok _ => toolDispatch env nameJ argsJ : Except String Json) with
      | .ok r => .ok r
      | .error e => .ok (toolErrorResult e)

/-! ## `resources/list` and `resources/read` -/

/-- One resource descriptor of the static catalog. -/
def resourceDescriptor (uri name description mimeType : String) : Json :=
  .obj [("uri", .str uri), ("name", .str name),
        ("description", .str description), ("mimeType", .str mimeType)]

/-- The static resource catalog returned by `handle_list_resources`
(lines 525–554). -/
def resourcesCatalog : Json :=
  .obj [("resources", .arr
    [resourceDescriptor "coding-guidelines://python" "Python Coding Guidelines"
       "Comprehensive Python coding best practices and guidelines" "text/markdown",
     resourceDescriptor "patterns://design-patterns" "Design Patterns Reference"
       "Common software design patterns with examples" "text/markdown",
     resourceDescriptor "security://best-practices" "Security Best Practices"
       "Security guidelines for safe coding practices" "text/markdown",
     resourceDescriptor "performance://optimization-guide" "Performance Optimization Guide"
       "Techniques and strategies for code optimization" "text/markdown"])]

/-- Handler `handle_list_resources`: ignores its params and returns the fixed
catalog rebuilt from the same literals on every call. -/
def handle_list_resources (_params : Json) : Except String Json :=
  .ok resourcesCatalog

/-- Content registered for `coding-guidelines://python` (lines 561–586). -/
def pythonGuidelinesContent : String :=
  "# Python Coding Guidelines\n\n## Code Style\n- Follow PEP 8 for style guidelines\n- Use meaningful variable and function names\n- Keep functions small and focused (single responsibility)\n- Use type hints for better code documentation\n\n## Best Practices\n- Use virtual environments for dependency management\n- Write docstrings for all public functions and classes\n- Handle exceptions appropriately\n- Use logging instead of print statements\n- Write unit tests for your code\n\n## Performance Tips\n- Use list comprehensions and generator expressions\n- Prefer built-in functions over custom implementations\n- Use appropriate data structures (dict, set, list)\n- Profile your code to identify bottlenecks\n\n## Security Considerations\n- Validate all user inputs\n- Use parameterized queries for database operations\n- Don\x27t store secrets in code\n- Keep dependencies up to date"

/-- Content registered for `patterns://design-patterns` (lines 587–605). -/
def designPatternsContent : String :=
  "# Design Patterns Reference\n\n## Creational Patterns\n- **Singleton**: Ensure only one instance exists\n- **Factory**: Create objects without specifying exact classes\n- **Builder**: Construct complex objects step by step\n\n## Structural Patterns\n- **Adapter**: Allow incompatible interfaces to work together\n- **Decorator**: Add behavior to objects dynamically\n- **Facade**: Provide simplified interface to complex subsystem\n\n## Behavioral Patterns\n- **Observer**: Define one-to-many dependency between objects\n- **Strategy**: Define family of algorithms and make them interchangeable\n- **Command**: Encapsulate requests as objects\n\n## When to Use\nChoose patterns based on the specific problem you\x27re solving, not because they\x27re popular."

/-- Content registered for `security://best-practices` (lines 606–632). -/
def securityPracticesContent : String :=
  "# Security Best Practices\n\n## Input Validation\n- Validate all user inputs\n- Use allowlists over blocklists\n- Sanitize data before processing\n\n## Authentication & Authorization\n- Use strong authentication mechanisms\n- Implement proper session management\n- Follow principle of least privilege\n\n## Data Protection\n- Encrypt sensitive data at rest and in transit\n- Use secure random number generators\n- Implement proper key management\n\n## Common Vulnerabilities\n- SQL Injection: Use parameterized queries\n- XSS: Escape output properly\n- CSRF: Use anti-CSRF tokens\n- Path Traversal: Validate file paths\n\n## Dependencies\n- Keep all dependencies updated\n- Use vulnerability scanners\n- Review third-party code"

/-- Content registered for `performance://optimization-guide` (lines
633–658). -/
def optimizationGuideContent : String :=
  "# Performance Optimization Guide\n\n## Profiling\n- Measure before optimizing\n- Use profiling tools to identify bottlenecks\n- Focus on the 80/20 rule\n\n## Algorithm Optimization\n- Choose appropriate algorithms and data structures\n- Consider time and space complexity\n- Use caching for expensive operations\n\n## Database Optimization\n- Use proper indexing\n- Optimize queries\n- Consider connection pooling\n\n## Memory Management\n- Avoid memory leaks\n- Use appropriate data structures\n- Consider lazy loading for large datasets\n\n## Concurrency\n- Use async/await for I/O-bound operations\n- Consider multiprocessing for CPU-bound tasks\n- Be aware of GIL limitations in Python"

/-- The `resources` dict of `handle_read_resource`. -/
def resourceContents : List (String × String) :=
  [("coding-guidelines://python", pythonGuidelinesContent),
   ("patterns://design-patterns", designPatternsContent),
   ("security://best-practices", securityPracticesContent),
   ("performance://optimization-guide", optimizationGuideContent)]

/-- Lookup `uri in resources` followed by `resources[uri]`: only a string uri can
be a key of the dict. -/
def resourceFor (uriJ : Json) : Option String :=
  match uriJ with
  | .str s => lookupStr resourceContents s
  | _ => none

/-- Handler `handle_read_resource`: reads `uri` from the params dict (raising on a
non-dict), raises `Unknown resource` for a uri outside the dict, else
returns the registered content. -/
def handle_read_resource (params : Json) : Except String Json :=
  match pyGetD params "uri" (.str "") with
  | .error e => .error e
  | .ok uriJ =>
    match resourceFor uriJ with
    | none => .error ("Unknown resource: " ++ pyStr uriJ)
    | some content =>
      .ok (.obj [("contents", .arr [.obj [("type", .str "text"), ("text", .str content)]])])

/-! ## The dispatcher (`handle_request`) and the read loop (`run`) -/

/-- The seven method names registered by `setup_handlers`. -/
def registeredMethods : List String :=
  ["initialize", "prompts/list", "prompts/get", "tools/list", "tools/call",
   "resources/list", "resources/read"]

/-- The five tool names recognized by `handle_call_tool`'s `if` chain. -/
def toolNames : List String :=
  ["generate_code", "refactor_code", "debug_code", "optimize_performance", "generate_tests"]

/-- The four prompt names that key the template dict. -/
def promptNames : List String :=
  ["analyze_code", "generate_documentation", "code_review", "explain_concept"]

/-- The `self.handlers` routing table: `method not in self.handlers` holds
exactly when this returns `none` (only a string can be a dict key). -/
def handlerFor (serverName : String) (env : ProviderEnv) (methodJ : Json) :
    Option (Json → Except String Json) :=
  match methodJ with
  | .str s =>
      if s = "initialize" then some ( handle_initialize serverName)
      else if s = "prompts/list" then some handle_list_prompts
      else if s = "prompts/get" then some handle_get_prompt
      else if s = "tools/list" then some handle_list_tools
      else if s = "tools/call" then some (handle_call_tool env)
      else if s = "resources/list" then some handle_list_resources
      else if s = "resources/read" then some handle_read_resource
      else none
  | _ => none

/-- The `try` body of `handle_request` (lines 668–678): read `method`,
`params` and `id` from the request (each raising `AttributeError` on a
non-dict), raise `Unknown method` for an unregistered method, else run the
handler and wrap its value in a success envelope. -/
def dispatchBody (serverName : String) (env : ProviderEnv) (request : Json) :
    Except String Json :=
  match pyGetD request "method" (.str "") with
  | .error e => .error e
  | .ok methodJ =>
    match pyGetD request "params" (.obj []) with
    | .error e => .error e
    | .ok paramsJ =>
      match pyGetD request "id" .null with
      | .error e => .error e
      | .ok idJ =>
        match handlerFor serverName env methodJ with
        | none => .error ("Unknown method: " ++ pyStr methodJ)
        | some h =>
          match h paramsJ with
          | .error e => .error e
          | .ok result => .ok (successEnvelope idJ result)

/-- Dispatcher `handle_request` (lines 666–686): run the `try` body; on any raise the
`except` clause re-reads `request.get("id")` — which itself raises when the
request is not a dict, in which case the exception escapes the handler
(modelled by the `.error` outcome) — and wraps the message in a code `-1`
error envelope. -/
def handle_request (serverName : String) (env : ProviderEnv) (request : Json) :
    Except String Json :=
  match dispatchBody serverName env request with
  | .ok resp => .ok resp
  | .error e =>
    match pyGetD request "id" .null with
    | .error e2 => .error e2
    | .ok idJ => .ok (errorEnvelope idJ (-1) e)

/-- Fate of one iteration of `run`'s read loop: either exactly one
envelope is printed and the loop moves to the next line, or an exception
escaped the inner `try` (anything but the `JSONDecodeError` it catches),
was swallowed by the outer `except` and the loop terminated. -/
inductive LineOutcome where
  | emitted (resp : Json)
  | crashed (msg : String)

/-- Whether the iteration printed an envelope and the loop survived. -/
def LineOutcome.emitsOne : LineOutcome → Bool
  | .emitted _ => true
  | .crashed _ => false

/-- Processing of one input line by `run` (lines 700–714).  The argument
models the outcome of `json.loads(line.strip())`: `none` for a line that is
not syntactically valid JSON (`JSONDecodeError`, answered by the fixed
parse-error envelope without consulting any handler), `some v` for a line
decoding to the JSON value `v`, which is passed to `handle_request`. -/
def processLine (serverName : String) (env : ProviderEnv) (parsed : Option Json) :
    LineOutcome :=
  match parsed with
  | none => .emitted parseErrorResponse
  | some request =>
    match handle_request serverName env request with
    | .ok resp => .emitted resp
    | .error e => .crashed e

/-- The whole read loop over a finite stdin: the envelopes printed for the
given decoded lines, in order.  A crash stops the loop; the remaining lines
are never read. -/
def runLoop (serverName : String) (env : ProviderEnv) : List (Option Json) → List Json
  | [] => []
  | line :: rest =>
    match processLine serverName env line with
    | .emitted resp => resp :: runLoop serverName env rest
    | .crashed _ => []

/-! ## Observations used by the verified properties -/

/-- A provider environment in which client construction succeeds and every
completion call returns a fixed text. -/
def okEnv : ProviderEnv :=
  ⟨.ok (), fun _ => .ok "completion text"⟩

/-- A provider environment in which client construction fails the way
`OpenAIClient.get_client` fails without the environment variable. -/
def noKeyEnv : ProviderEnv :=
  ⟨.error "OPENAI_API_KEY environment variable must be set", fun _ => .ok "completion text"⟩

/-- A provider environment in which the client exists but every outbound
completion call raises with the given message. -/
def callFailEnv (msg : String) : ProviderEnv :=
  ⟨.ok (), fun _ => .error msg⟩

/-- Exactly one of `result` / `error` is present: the envelope-shape
invariant of §3 of the specification. -/
def exactlyOneOfResultError (resp : Json) : Bool :=
  (Json.hasKey resp "result" && !Json.hasKey resp "error") ||
  (!Json.hasKey resp "result" && Json.hasKey resp "error")

/-- A well-formed response envelope: the protocol tag and `id` are present
and exactly one of `result` / `error` is carried. -/
def isWellFormedResponse (resp : Json) : Bool :=
  Json.hasKey resp "jsonrpc" && Json.hasKey resp "id" && exactlyOneOfResultError resp

/-- The decoded lines for which the specification's read-loop contract is
claimed to hold: syntactically invalid JSON or a JSON object. -/
def parsedIsObjOrNone : Option Json → Bool
  | none => true
  | some (.obj _) => true
  | some _ => false

/-- Membership of a decoded value in a list of string keys, as Python's
`in` over a string-keyed dict decides it. -/
def jsonInStrList (j : Json) (names : List String) : Bool :=
  names.any (fun n => jsonEqStr j n)

/-! ## Helper lemmas -/

theorem listIsPrefixOf_refl (l : List Char) : listIsPrefixOf l l = true := by
  induction l with
  | nil => rfl
  | cons c rest ih => simp [listIsPrefixOf, ih]

theorem listContainsSub_self (l : List Char) : listContainsSub l l = true := by
  cases l with
  | nil => rfl
  | cons c rest => simp [listContainsSub, listIsPrefixOf_refl]

theorem listContainsSub_append_left (pre l : List Char) :
    listContainsSub (pre ++ l) l = true := by
  induction pre with
  | nil => simpa using listContainsSub_self l
  | cons c rest ih => simp [listContainsSub, ih]

theorem strContains_append_left (pre m : String) :
    strContains (pre ++ m) m = true := by
  show listContainsSub (pre ++ m).data m.data = true
  have : (pre ++ m).data = pre.data ++ m.data := rfl
  rw [this]
  exact listContainsSub_append_left pre.data m.data

theorem str_append_assoc (a b c : String) : a ++ b ++ c = a ++ (b ++ c) :=
  congrArg String.mk (List.append_assoc a.data b.data c.data)

theorem pyGetD_obj (fields : List (String × Json)) (key : String) (dflt : Json) :
    pyGetD (Json.obj fields) key dflt = .ok (Json.getD (Json.obj fields) key dflt) := rfl

/-- Normal form of `dispatchBody` on a dict request: the three `get`s
succeed and only the routing and the handler can fail. -/
theorem dispatchBody_obj (sn : String) (env : ProviderEnv) (fields : List (String × Json)) :
    dispatchBody sn env (Json.obj fields) =
      (match handlerFor sn env (Json.getD (Json.obj fields) "method" (Json.str "")) with
       | none => .error ("Unknown method: " ++
           pyStr (Json.getD (Json.obj fields) "method" (Json.str "")))
       | some h =>
         match h (Json.getD (Json.obj fields) "params" (Json.obj [])) with
         | .error e => .error e
         | .ok result =>
             .ok (successEnvelope (Json.getD (Json.obj fields) "id" Json.null) result)) := rfl

/-- Normal form of `handle_request` on a dict request: the `except` clause's own
`request.get("id")` succeeds, so every raise becomes a code `-1` error
envelope. -/
theorem handle_request_obj (sn : String) (env : ProviderEnv) (fields : List (String × Json)) :
    handle_request sn env (Json.obj fields) =
      (match dispatchBody sn env (Json.obj fields) with
       | .ok resp => .ok resp
       | .error e =>
           .ok (errorEnvelope (Json.getD (Json.obj fields) "id" Json.null) (-1) e)) := by
  unfold handle_request
  cases dispatchBody sn env (Json.obj fields) <;> rfl

/-- Normal form of `handle_call_tool` on a dict params. -/
theorem handle_call_tool_obj (env : ProviderEnv) (pfields : List (String × Json)) :
    handle_call_tool env (Json.obj pfields) =
      (match (match env.getClient with
              | .error e => .error e
              | .ok _ => toolDispatch env
                  (Json.getD (Json.obj pfields) "name" (Json.str ""))
                  (Json.getD (Json.obj pfields) "arguments" (Json.obj [])) :
              Except String Json) with
       | .ok r => .ok r
       | .error e => .ok (toolErrorResult e)) := rfl

theorem wellFormed_successEnvelope (idJ result : Json) :
    isWellFormedResponse (successEnvelope idJ result) = true := rfl

theorem wellFormed_errorEnvelope (idJ : Json) (code : Int) (msg : String) :
    isWellFormedResponse (errorEnvelope idJ code msg) = true := rfl

theorem getD_id_successEnvelope (idJ result dflt : Json) :
    Json.getD (successEnvelope idJ result) "id" dflt = idJ := rfl

theorem getD_id_errorEnvelope (idJ : Json) (code : Int) (msg : String) (dflt : Json) :
    Json.getD (errorEnvelope idJ code msg) "id" dflt = idJ := rfl

/-- Shape of every envelope the dispatcher produces for a dict request:
exactly one envelope, well formed, with the request's `id` echoed. -/
theorem handle_request_obj_shape (sn : String) (env : ProviderEnv)
    (fields : List (String × Json)) :
    ∃ resp, handle_request sn env (Json.obj fields) = .ok resp ∧
      isWellFormedResponse resp = true ∧
      Json.getD resp "id" Json.null = Json.getD (Json.obj fields) "id" Json.null := by
  rw [handle_request_obj, dispatchBody_obj]
  cases hh : handlerFor sn env (Json.getD (Json.obj fields) "method" (Json.str "")) with
  | none =>
      exact ⟨errorEnvelope (Json.getD (Json.obj fields) "id" Json.null) (-1)
          ("Unknown method: " ++ pyStr (Json.getD (Json.obj fields) "method" (Json.str ""))),
        rfl, wellFormed_errorEnvelope _ _ _, getD_id_errorEnvelope _ _ _ _⟩
  | some h =>
      dsimp only
      cases hr : h (Json.getD (Json.obj fields) "params" (Json.obj [])) with
      | error e =>
          exact ⟨errorEnvelope (Json.getD (Json.obj fields) "id" Json.null) (-1) e, rfl,
            wellFormed_errorEnvelope _ _ _, getD_id_errorEnvelope _ _ _ _⟩
      | ok result =>
          exact ⟨successEnvelope (Json.getD (Json.obj fields) "id" Json.null) result, rfl,
            wellFormed_successEnvelope _ _, getD_id_successEnvelope _ _ _⟩

/-- Every survivable line (malformed JSON or a dict request) yields exactly
one well-formed envelope. -/
theorem processLine_ok (sn : String) (env : ProviderEnv) (l : Option Json)
    (h : parsedIsObjOrNone l = true) :
    ∃ resp, processLine sn env l = .emitted resp ∧ isWellFormedResponse resp = true := by
  match l with
  | none => exact ⟨parseErrorResponse, rfl, rfl⟩
  | some (.obj fields) =>
      obtain ⟨resp, hresp, hwf, _⟩ := handle_request_obj_shape sn env fields
      refine ⟨resp, ?_, hwf⟩
      simp [processLine, hresp]
  | some .null => simp [parsedIsObjOrNone] at h
  | some (.bool b) => simp [parsedIsObjOrNone] at h
  | some (.num n) => simp [parsedIsObjOrNone] at h
  | some (.str s) => simp [parsedIsObjOrNone] at h
  | some (.arr xs) => simp [parsedIsObjOrNone] at h

theorem handlerFor_tools_call (sn : String) (env : ProviderEnv) :
    handlerFor sn env (Json.str "tools/call") = some (handle_call_tool env) := rfl

/-- A method string outside the routing table is dispatched to no
handler. -/
theorem handlerFor_unregistered (sn : String) (env : ProviderEnv) (s : String)
    (h : s ∉ registeredMethods) : handlerFor sn env (Json.str s) = none := by
  simp only [registeredMethods, List.mem_cons, List.not_mem_nil, or_false] at h
  push_neg at h
  obtain ⟨h1, h2, h3, h4, h5, h6, h7⟩ := h
  simp [handlerFor, h1, h2, h3, h4, h5, h6, h7]

/-- A name outside the five-tool `if` chain falls through to the
`Unknown tool` raise. -/
theorem toolDispatch_unknown (env : ProviderEnv) (name : String) (argsJ : Json)
    (h : name ∉ toolNames) :
    toolDispatch env (Json.str name) argsJ = .error ("Unknown tool: " ++ name) := by
  simp only [toolNames, List.mem_cons, List.not_mem_nil, or_false] at h
  push_neg at h
  obtain ⟨h1, h2, h3, h4, h5⟩ := h
  simp [toolDispatch, jsonEqStr, h1, h2, h3, h4, h5, pyStr]

/-- With a dict `arguments` and a provider whose every call fails with
message `m`, each of the five tool branches surfaces exactly `m`. -/
theorem toolDispatch_known_fail (env : ProviderEnv) (name : String)
    (afields : List (String × Json)) (m : String)
    (hmem : name ∈ toolNames) (hc : ∀ p, env.complete p = .error m) :
    toolDispatch env (Json.str name) (Json.obj afields) = .error m := by
  simp only [toolNames, List.mem_cons, List.not_mem_nil, or_false] at hmem
  rcases hmem with h | h | h | h | h <;> subst h <;>
    simp [toolDispatch, jsonEqStr, pyGetD, hc]

/-! ## The verified claims -/

/-- C1 (counterexample): a `tools/call` request for the unrecognized tool
`made_up_tool` is answered with a *successful* envelope — the payload sits
under `result` (with `isError: true`), and no `error` member is present —
contradicting the claim that it yields a protocol-level JSON-RPC error
object with code `-1`. -/
theorem unknownToolCounterexample :
    handle_request "mcp-ai-poc" okEnv
        (Json.obj [("id", Json.num 7), ("method", Json.str "tools/call"),
                   ("params", Json.obj [("name", Json.str "made_up_tool"),
                                        ("arguments", Json.obj [])])])
      = .ok (successEnvelope (Json.num 7) (toolErrorResult "Unknown tool: made_up_tool")) ∧
    Json.hasKey (successEnvelope (Json.num 7) (toolErrorResult "Unknown tool: made_up_tool"))
        "error" = false ∧
    Json.hasKey (successEnvelope (Json.num 7) (toolErrorResult "Unknown tool: made_up_tool"))
        "result" = true :=
  ⟨rfl, rfl, rfl⟩

/-- C1 (amended): for every `tools/call` request whose params carry a name
outside the tool catalog, when client construction succeeds the dispatcher
returns a *successful* envelope whose result payload carries
`isError: true` and a text naming the unknown tool; there is no `error`
member. -/
theorem unknownToolIsErrorResult (sn : String) (env : ProviderEnv)
    (rfields pfields : List (String × Json)) (name : String)
    (hclient : env.getClient = .ok ())
    (hmethod : Json.getD (Json.obj rfields) "method" (Json.str "") = Json.str "tools/call")
    (hparams : Json.getD (Json.obj rfields) "params" (Json.obj []) = Json.obj pfields)
    (hname : Json.getD (Json.obj pfields) "name" (Json.str "") = Json.str name)
    (hunknown : name ∉ toolNames) :
    handle_request sn env (Json.obj rfields) =
      .ok (successEnvelope (Json.getD (Json.obj rfields) "id" Json.null)
        (toolErrorResult ("Unknown tool: " ++ name))) ∧
    Json.getD (toolErrorResult ("Unknown tool: " ++ name)) "isError" Json.null = Json.bool true ∧
    strContains ("Error: " ++ ("Unknown tool: " ++ name)) name = true ∧
    Json.hasKey (successEnvelope (Json.getD (Json.obj rfields) "id" Json.null)
        (toolErrorResult ("Unknown tool: " ++ name))) "error" = false := by
  have hcall : handle_call_tool env (Json.obj pfields) =
      .ok (toolErrorResult ("Unknown tool: " ++ name)) := by
    rw [handle_call_tool_obj, hname, hclient]
    dsimp only
    rw [toolDispatch_unknown env name _ hunknown]
  refine ⟨?_, rfl, ?_, rfl⟩
  · rw [handle_request_obj, dispatchBody_obj, hmethod, handlerFor_tools_call]
    dsimp only
    rw [hparams, hcall]
  · rw [← str_append_assoc]
    exact strContains_append_left _ _

/-- C1 (witness for the amended theorem). -/
theorem unknownToolIsErrorResultWitness :
    handle_request "mcp-ai-poc" okEnv
        (Json.obj [("id", Json.num 7), ("method", Json.str "tools/call"),
                   ("params", Json.obj [("name", Json.str "made_up_tool"),
                                        ("arguments", Json.obj [])])]) =
      .ok (successEnvelope
        (Json.getD (Json.obj [("id", Json.num 7), ("method", Json.str "tools/call"),
            ("params", Json.obj [("name", Json.str "made_up_tool"),
                                 ("arguments", Json.obj [])])]) "id" Json.null)
        (toolErrorResult ("Unknown tool: " ++ "made_up_tool"))) ∧
    Json.getD (toolErrorResult ("Unknown tool: " ++ "made_up_tool")) "isError" Json.null =
      Json.bool true ∧
    strContains ("Error: " ++ ("Unknown tool: " ++ "made_up_tool")) "made_up_tool" = true ∧
    Json.hasKey (successEnvelope
        (Json.getD (Json.obj [("id", Json.num 7), ("method", Json.str "tools/call"),
            ("params", Json.obj [("name", Json.str "made_up_tool"),
                                 ("arguments", Json.obj [])])]) "id" Json.null)
        (toolErrorResult ("Unknown tool: " ++ "made_up_tool"))) "error" = false :=
  unknownToolIsErrorResult "mcp-ai-poc" okEnv
    [("id", Json.num 7), ("method", Json.str "tools/call"),
     ("params", Json.obj [("name", Json.str "made_up_tool"), ("arguments", Json.obj [])])]
    [("name", Json.str "made_up_tool"), ("arguments", Json.obj [])]
    "made_up_tool" rfl rfl rfl rfl (by decide)

/-- C2 (counterexample): an input line decoding to the JSON number `5`
(valid JSON, not an object) makes the error path's own `request.get("id")`
raise, the exception escapes the inner `try`, no envelope is printed, and
the read loop terminates: a following well-formed line is never answered. -/
theorem nonObjectLineCrashesLoop :
    LineOutcome.emitsOne (processLine "mcp-ai-poc" okEnv (some (Json.num 5))) = false ∧
    runLoop "mcp-ai-poc" okEnv
      [some (Json.num 5), some (Json.obj [("method", Json.str "initialize")])] = [] :=
  ⟨rfl, rfl⟩

/-- C2 (amended): for every input line that is either malformed JSON or
decodes to a JSON *object* (including requests whose handler raises), the
loop emits exactly one well-formed envelope per line and survives; lines
decoding to non-object JSON values are excluded, since there the error
path itself raises and the loop dies without an envelope. -/
theorem loopEmitsOnePerSurvivableLine (sn : String) (env : ProviderEnv)
    (lines : List (Option Json))
    (h : ∀ l ∈ lines, parsedIsObjOrNone l = true) :
    (runLoop sn env lines).length = lines.length ∧
    ∀ r ∈ runLoop sn env lines, isWellFormedResponse r = true := by
  induction lines with
  | nil => exact ⟨rfl, by intro r hr; cases hr⟩
  | cons l rest ih =>
      have hl := h l (List.mem_cons_self l rest)
      have hrest := ih (fun x hx => h x (List.mem_cons_of_mem l hx))
      obtain ⟨resp, hp, hwf⟩ := processLine_ok sn env l hl
      constructor
      · simp [runLoop, hp, hrest.1]
      · intro r hr
        simp only [runLoop, hp] at hr
        rcases List.mem_cons.mp hr with rfl | hr
        · exact hwf
        · exact hrest.2 r hr

/-- C2 (witness for the amended theorem). -/
theorem loopEmitsOnePerSurvivableLineWitness :
    (runLoop "mcp-ai-poc" okEnv
        [none, some (Json.obj [("method", Json.str "tools/list")])]).length =
      [none, some (Json.obj [("method", Json.str "tools/list")])].length ∧
    ∀ r ∈ runLoop "mcp-ai-poc" okEnv
        [none, some (Json.obj [("method", Json.str "tools/list")])],
      isWellFormedResponse r = true :=
  loopEmitsOnePerSurvivableLine "mcp-ai-poc" okEnv
    [none, some (Json.obj [("method", Json.str "tools/list")])] (by decide)

/-- C3: for every `tools/call` request naming a catalog tool with a dict
`arguments`, a provider failure — the missing-key raise of lazy client
construction or a failing outbound call — is answered with a *successful*
envelope whose result payload carries `isError: true` and a text containing
the failure message, not a JSON-RPC error object. -/
theorem providerFailureIsErrorResult (sn : String) (env : ProviderEnv)
    (rfields pfields afields : List (String × Json)) (name m : String)
    (hmethod : Json.getD (Json.obj rfields) "method" (Json.str "") = Json.str "tools/call")
    (hparams : Json.getD (Json.obj rfields) "params" (Json.obj []) = Json.obj pfields)
    (hname : Json.getD (Json.obj pfields) "name" (Json.str "") = Json.str name)
    (hargs : Json.getD (Json.obj pfields) "arguments" (Json.obj []) = Json.obj afields)
    (hknown : name ∈ toolNames)
    (hfail : env.getClient = .error m ∨
             (env.getClient = .ok () ∧ ∀ p, env.complete p = .error m)) :
    handle_request sn env (Json.obj rfields) =
      .ok (successEnvelope (Json.getD (Json.obj rfields) "id" Json.null) (toolErrorResult m)) ∧
    strContains ("Error: " ++ m) m = true ∧
    Json.getD (toolErrorResult m) "isError" Json.null = Json.bool true ∧
    Json.hasKey (successEnvelope (Json.getD (Json.obj rfields) "id" Json.null)
        (toolErrorResult m)) "error" = false := by
  have hcall : handle_call_tool env (Json.obj pfields) = .ok (toolErrorResult m) := by
    rw [handle_call_tool_obj, hname, hargs]
    rcases hfail with hcl | ⟨hcl, hc⟩
    · rw [hcl]
    · rw [hcl]
      dsimp only
      rw [toolDispatch_known_fail env name afields m hknown hc]
  refine ⟨?_, strContains_append_left _ _, rfl, rfl⟩
  rw [handle_request_obj, dispatchBody_obj, hmethod, handlerFor_tools_call]
  dsimp only
  rw [hparams, hcall]

/-- C3 (witness): `generate_code` with the provider environment in which
`OPENAI_API_KEY` is absent. -/
theorem providerFailureIsErrorResultWitness :
    handle_request "mcp-ai-poc" noKeyEnv
        (Json.obj [("id", Json.num 3), ("method", Json.str "tools/call"),
                   ("params", Json.obj [("name", Json.str "generate_code"),
                                        ("arguments", Json.obj [])])]) =
      .ok (successEnvelope
        (Json.getD (Json.obj [("id", Json.num 3), ("method", Json.str "tools/call"),
            ("params", Json.obj [("name", Json.str "generate_code"),
                                 ("arguments", Json.obj [])])]) "id" Json.null)
        (toolErrorResult "OPENAI_API_KEY environment variable must be set")) ∧
    strContains ("Error: " ++ "OPENAI_API_KEY environment variable must be set")
      "OPENAI_API_KEY environment variable must be set" = true ∧
    Json.getD (toolErrorResult "OPENAI_API_KEY environment variable must be set")
      "isError" Json.null = Json.bool true ∧
    Json.hasKey (successEnvelope
        (Json.getD (Json.obj [("id", Json.num 3), ("method", Json.str "tools/call"),
            ("params", Json.obj [("name", Json.str "generate_code"),
                                 ("arguments", Json.obj [])])]) "id" Json.null)
        (toolErrorResult "OPENAI_API_KEY environment variable must be set")) "error" = false :=
  providerFailureIsErrorResult "mcp-ai-poc" noKeyEnv
    [("id", Json.num 3), ("method", Json.str "tools/call"),
     ("params", Json.obj [("name", Json.str "generate_code"), ("arguments", Json.obj [])])]
    [("name", Json.str "generate_code"), ("arguments", Json.obj [])]
    [] "generate_code" "OPENAI_API_KEY environment variable must be set"
    rfl rfl rfl rfl (by decide) (Or.inl rfl)

/-- C4: for every well-formed (dict) request — any `id` value, including an
absent one — the dispatcher produces exactly one envelope, and its `id`
equals the request's `id`, on the success path and the error path alike. -/
theorem responseIdEchoesRequestId (sn : String) (env : ProviderEnv)
    (rfields : List (String × Json)) :
    ∃ resp, handle_request sn env (Json.obj rfields) = .ok resp ∧
      Json.getD resp "id" Json.null = Json.getD (Json.obj rfields) "id" Json.null := by
  obtain ⟨resp, h1, _, h3⟩ := handle_request_obj_shape sn env rfields
  exact ⟨resp, h1, h3⟩

/-- C5: every envelope the dispatcher produces — for any decoded request
value whatsoever — carries exactly one of the two members `result` and
`error`, never both and never neither. -/
theorem responseHasExactlyOneOfResultError (sn : String) (env : ProviderEnv)
    (request : Json) (resp : Json)
    (h : handle_request sn env request = .ok resp) :
    exactlyOneOfResultError resp = true := by
  cases request with
  | obj rfields =>
      obtain ⟨r, h1, hwf, _⟩ := handle_request_obj_shape sn env rfields
      rw [h] at h1
      injection h1 with h2
      subst h2
      simp only [isWellFormedResponse, Bool.and_eq_true] at hwf
      exact hwf.2
  | null => exact Except.noConfusion h
  | bool b => exact Except.noConfusion h
  | num n => exact Except.noConfusion h
  | str s => exact Except.noConfusion h
  | arr xs => exact Except.noConfusion h

/-- C5 (witness): the `initialize` response. -/
theorem responseHasExactlyOneOfResultErrorWitness :
    exactlyOneOfResultError (successEnvelope Json.null (initializeResult "mcp-ai-poc")) = true :=
  responseHasExactlyOneOfResultError "mcp-ai-poc" okEnv
    (Json.obj [("method", Json.str "initialize")])
    (successEnvelope Json.null (initializeResult "mcp-ai-poc")) rfl

/-- C6: a line that is not syntactically valid JSON is answered — for
every server name and provider environment, hence independently of any
handler — by the fixed parse-error envelope with `id = null` and
`error.code = -32700`, and that envelope carries no `result`. -/
theorem malformedLineGetsParseError (sn : String) (env : ProviderEnv) :
    processLine sn env none = .emitted parseErrorResponse ∧
    Json.getD parseErrorResponse "id" (Json.str "missing") = Json.null ∧
    Json.getD (Json.getD parseErrorResponse "error" Json.null) "code" Json.null =
      Json.num (-32700) ∧
    Json.hasKey parseErrorResponse "result" = false :=
  ⟨rfl, rfl, rfl, rfl⟩

/-- C7: a successfully parsed request whose method string is not one of
the seven registered methods is answered with the request's own `id` and a
code `-1` error whose message contains the unrecognized method name. -/
theorem unknownMethodError (sn : String) (env : ProviderEnv)
    (rfields : List (String × Json)) (s : String)
    (hmethod : Json.getD (Json.obj rfields) "method" (Json.str "") = Json.str s)
    (hunknown : s ∉ registeredMethods) :
    handle_request sn env (Json.obj rfields) =
      .ok (errorEnvelope (Json.getD (Json.obj rfields) "id" Json.null) (-1)
        ("Unknown method: " ++ s)) ∧
    strContains ("Unknown method: " ++ s) s = true := by
  refine ⟨?_, strContains_append_left _ _⟩
  rw [handle_request_obj, dispatchBody_obj, hmethod,
    handlerFor_unregistered sn env s hunknown]
  rfl

/-- C7 (witness). -/
theorem unknownMethodErrorWitness :
    handle_request "mcp-ai-poc" okEnv
        (Json.obj [("id", Json.num 2), ("method", Json.str "nonexistent_method")]) =
      .ok (errorEnvelope
        (Json.getD (Json.obj [("id", Json.num 2), ("method", Json.str "nonexistent_method")])
          "id" Json.null) (-1)
        ("Unknown method: " ++ "nonexistent_method")) ∧
    strContains ("Unknown method: " ++ "nonexistent_method") "nonexistent_method" = true :=
  unknownMethodError "mcp-ai-poc" okEnv
    [("id", Json.num 2), ("method", Json.str "nonexistent_method")]
    "nonexistent_method" rfl (by decide)

/-- The text produced by filling the `explain_concept` template with
`concept = "recursion"` and the defaulted `level = "intermediate"`. -/
def explainRecursionFilled : String :=
  "Explain the programming concept \"recursion\" at a intermediate level.\n\nInclude:\n1. Clear definition and explanation\n2. Why it\x27s important/useful\n3. Common use cases and examples\n4. Best practices\n5. Common pitfalls to avoid\n6. Related concepts\n\nTailor the explanation to a intermediate audience."

set_option maxRecDepth 16384 in
/-- C8: `prompts/get` for `explain_concept` with `arguments = {"concept":
"recursion"}` and no `level` key succeeds; the filled text contains the
literal `"recursion"`, both `level` placeholders are filled with
`"intermediate"`, and no `\x7blevel\x7d` placeholder survives. -/
theorem explainConceptDefaultsLevel :
    handle_get_prompt (Json.obj [("name", Json.str "explain_concept"),
        ("arguments", Json.obj [("concept", Json.str "recursion")])]) =
      .ok (promptResult (Json.str "explain_concept") explainRecursionFilled) ∧
    strContains explainRecursionFilled "recursion" = true ∧
    strContains explainRecursionFilled "at a intermediate level" = true ∧
    strContains explainRecursionFilled "to a intermediate audience" = true ∧
    strContains explainRecursionFilled "{level}" = false :=
  ⟨rfl, rfl, rfl, rfl, rfl⟩

/-- C9: the three `*/list` handlers are pure functions of nothing — every
invocation, whatever its params, returns the same catalog value, so
repeated calls are idempotent and mutation-free. -/
theorem listHandlersConstant (p q : Json) :
    handle_list_tools p = handle_list_tools q ∧
    handle_list_prompts p = handle_list_prompts q ∧
    handle_list_resources p = handle_list_resources q ∧
    handle_list_tools p = .ok toolsCatalog ∧
    handle_list_prompts p = .ok promptsCatalog ∧
    handle_list_resources p = .ok resourcesCatalog :=
  ⟨rfl, rfl, rfl, rfl, rfl, rfl⟩

/-- Normal form of `handle_get_prompt` on a dict params: only the template
lookup and the argument reads can fail. -/
theorem handle_get_prompt_obj (pfields : List (String × Json)) :
    handle_get_prompt (Json.obj pfields) =
      (match templateFor (Json.getD (Json.obj pfields) "name" (Json.str "")) with
       | none => .error ("Unknown prompt: " ++
           pyStr (Json.getD (Json.obj pfields) "name" (Json.str "")))
       | some template =>
         match pyGetD (Json.getD (Json.obj pfields) "arguments" (Json.obj []))
             "code" (Json.str "") with
         | .error e => .error e
         | .ok code =>
           match pyGetD (Json.getD (Json.obj pfields) "arguments" (Json.obj []))
               "language" (Json.str "unknown") with
           | .error e => .error e
           | .ok language =>
             match pyGetD (Json.getD (Json.obj pfields) "arguments" (Json.obj []))
                 "style" (Json.str "google") with
             | .error e => .error e
             | .ok style =>
               match pyGetD (Json.getD (Json.obj pfields) "arguments" (Json.obj []))
                   "focus" (Json.str "general") with
               | .error e => .error e
               | .ok focus =>
                 match pyGetD (Json.getD (Json.obj pfields) "arguments" (Json.obj []))
                     "concept" (Json.str "") with
                 | .error e => .error e
                 | .ok concept =>
                   match pyGetD (Json.getD (Json.obj pfields) "arguments" (Json.obj []))
                       "level" (Json.str "intermediate") with
                   | .error e => .error e
                   | .ok level =>
                     .ok (promptResult (Json.getD (Json.obj pfields) "name" (Json.str ""))
                       (pyFormat template
                         (formatBinds code language style focus concept level)))) := rfl

/-- A value keys the template dict exactly when it is one of the four
prompt-name strings. -/
theorem templateFor_isSome_iff (j : Json) :
    (templateFor j).isSome = jsonInStrList j promptNames := by
  cases j with
  | str s =>
      by_cases h1 : s = "analyze_code"
      · subst h1; rfl
      · by_cases h2 : s = "generate_documentation"
        · subst h2; rfl
        · by_cases h3 : s = "code_review"
          · subst h3; rfl
          · by_cases h4 : s = "explain_concept"
            · subst h4; rfl
            · have k1 : ¬("analyze_code" = s) := fun hh => h1 hh.symm
              have k2 : ¬("generate_documentation" = s) := fun hh => h2 hh.symm
              have k3 : ¬("code_review" = s) := fun hh => h3 hh.symm
              have k4 : ¬("explain_concept" = s) := fun hh => h4 hh.symm
              simp [templateFor, lookupStr, promptTemplates, jsonInStrList, promptNames,
                jsonEqStr, h1, h2, h3, h4, k1, k2, k3, k4]
  | null => rfl
  | bool b => rfl
  | num n => rfl
  | arr xs => rfl
  | obj fs => rfl

/-- C10: with a dict (or absent) `arguments`, `prompts/get` fails exactly
when the supplied name is not a key of the template catalog; for a catalog
name it succeeds whatever the arguments are, and a request carrying no
arguments at all is answered with the template filled entirely from the
silent defaults — `code` and `concept` empty, `language = "unknown"`,
`style = "google"`, `focus = "general"`, `level = "intermediate"` — so
missing required arguments never produce an error. -/
theorem getPromptFailureIff :
    (∀ (pfields afields : List (String × Json)),
        Json.getD (Json.obj pfields) "arguments" (Json.obj []) = Json.obj afields →
        ((∃ r, handle_get_prompt (Json.obj pfields) = .ok r) ↔
          jsonInStrList (Json.getD (Json.obj pfields) "name" (Json.str ""))
            promptNames = true)) ∧
    (∀ (n t : String), lookupStr promptTemplates n = some t →
        handle_get_prompt (Json.obj [("name", Json.str n)]) =
          .ok (promptResult (Json.str n)
            (pyFormat t (formatBinds (Json.str "") (Json.str "unknown") (Json.str "google")
               (Json.str "general") (Json.str "") (Json.str "intermediate"))))) := by
  constructor
  · intro pfields afields hargs
    rw [← templateFor_isSome_iff]
    rw [handle_get_prompt_obj, hargs]
    cases htf : templateFor (Json.getD (Json.obj pfields) "name" (Json.str "")) with
    | none =>
        constructor
        · rintro ⟨r, hr⟩
          exact Except.noConfusion hr
        · intro hh
          exact Bool.noConfusion hh
    | some template =>
        refine ⟨fun _ => rfl, fun _ => ?_⟩
        dsimp only
        exact ⟨_, rfl⟩
  · intro n t h
    have htf : templateFor
        (Json.getD (Json.obj [("name", Json.str n)]) "name" (Json.str "")) = some t := h
    rw [handle_get_prompt_obj, htf]
    rfl

/-- C10 (witness): `code_review` with no arguments succeeds. -/
theorem getPromptFailureIffWitness :
    ((∃ r, handle_get_prompt (Json.obj [("name", Json.str "code_review")]) = Except.ok r) ↔
      jsonInStrList (Json.getD (Json.obj [("name", Json.str "code_review")])
        "name" (Json.str "")) promptNames = true) :=
  getPromptFailureIff.1 [("name", Json.str "code_review")] [] rfl

end McpPoc
